import Mathlib

/-!
Verification of the repository-list reconciliation logic and the URL source
entity of the anaconda installer slice, as a shallow embedding in Lean 4.

Embedded files:
* pyanaconda/modules/payloads/payload/dnf/repositories.py
* pyanaconda/modules/payloads/source/url/url.py
* pyanaconda/ui/helpers.py (the input-check aggregator)

Python objects become Lean structures with value semantics; the in-place
mutations of the Python code become functional updates; the unbounded
driver-disk scan loop becomes a fuel-indexed recursion; exceptions become
an explicit optional-error result paired with the (possibly unchanged) state.
-/

namespace Anaconda

/-- Origin tag for repositories derived from install-tree metadata
(constant REPO_ORIGIN_TREEINFO from pyanaconda.core.constants). -/
def REPO_ORIGIN_TREEINFO : String := "TREEINFO"

/-- Origin tag for user-specified repositories
(constant REPO_ORIGIN_USER from pyanaconda.core.constants). -/
def REPO_ORIGIN_USER : String := "USER"

/-- URL type constants from pyanaconda.core.constants. -/
def URL_TYPE_BASEURL : String := "BASEURL"

def URL_TYPE_MIRRORLIST : String := "MIRRORLIST"

def URL_TYPE_METALINK : String := "METALINK"

/-- The set of valid URL types (constant URL_TYPES). -/
def URL_TYPES : List String := [URL_TYPE_BASEURL, URL_TYPE_MIRRORLIST, URL_TYPE_METALINK]

/-- The nested SSL configuration record of RepoConfigurationData
(pyanaconda.modules.common.structures.payload). -/
structure SSLConfigurationData where
  ca_cert_path : String
  client_cert_path : String
  client_key_path : String
deriving DecidableEq, Repr

/-- Modelled from the spec: default SSL configuration (each path an optional
string, empty by default); the defining class is outside the reviewed files. -/
def SSLConfigurationData.default : SSLConfigurationData :=
  { ca_cert_path := "", client_cert_path := "", client_key_path := "" }

/-- The RepoConfigurationData value record
(pyanaconda.modules.common.structures.payload), restricted to the fields the
reviewed code reads or writes. -/
structure RepoConfigurationData where
  name : String
  url : String
  type : String
  origin : String
  enabled : Bool
  installation_enabled : Bool
  proxy : String
  ssl_verification_enabled : Bool
  ssl_configuration : SSLConfigurationData
deriving DecidableEq, Repr

/-- Modelled from the spec: a freshly constructed RepoConfigurationData with
default fields (type BASEURL, user origin, enabled, ssl verification on,
empty strings); the defining class is outside the reviewed files. -/
def RepoConfigurationData.default : RepoConfigurationData :=
  { name := ""
    url := ""
    type := URL_TYPE_BASEURL
    origin := REPO_ORIGIN_USER
    enabled := true
    installation_enabled := true
    proxy := ""
    ssl_verification_enabled := true
    ssl_configuration := SSLConfigurationData.default }

/-- The tree metadata record (TreeInfoRepoMetadata): read-only fields
name, url, enabled. -/
structure TreeInfoRepoMetadata where
  name : String
  url : String
  enabled : Bool
deriving DecidableEq, Repr

/-- generate_treeinfo_repository (repositories.py:76-94): a deep copy of the
template with origin, name, type, url, enabled and installation_enabled
overridden. -/
def generate_treeinfo_repository (repo_data : RepoConfigurationData)
    (repo_md : TreeInfoRepoMetadata) : RepoConfigurationData :=
  { repo_data with
    origin := REPO_ORIGIN_TREEINFO
    name := repo_md.name
    type := URL_TYPE_BASEURL
    url := repo_md.url
    enabled := repo_md.enabled
    installation_enabled := false }

/-- The set comprehension at repositories.py:108-111: names of previously
disabled treeinfo repositories. -/
def disabledNames (repositories : List RepoConfigurationData) : List String :=
  (repositories.filter
    (fun r => r.origin == REPO_ORIGIN_TREEINFO && !r.enabled)).map (fun r => r.name)

/-- The loop at repositories.py:113-115 applied to one record: disable it
when its name belongs to the disabled set. -/
def adjustDisabled (repositories : List RepoConfigurationData)
    (r : RepoConfigurationData) : RepoConfigurationData :=
  if (disabledNames repositories).contains r.name then { r with enabled := false } else r

/-- The set comprehension at repositories.py:119-122: non-empty urls of
repositories that are not treeinfo repositories. -/
def existingUrls (repositories : List RepoConfigurationData) : List String :=
  (repositories.filter
    (fun r => r.origin != REPO_ORIGIN_TREEINFO && r.url != "")).map (fun r => r.url)

/-- update_treeinfo_repositories (repositories.py:97-143): disable the newly
generated treeinfo repositories whose names were previously disabled, drop
those whose url duplicates a user repository, remove all previous treeinfo
repositories and append the remaining new ones. -/
def update_treeinfo_repositories (repositories treeinfo_repositories :
    List RepoConfigurationData) : List RepoConfigurationData :=
  let adjusted := treeinfo_repositories.map (adjustDisabled repositories)
  let surviving := adjusted.filter (fun r => !((existingUrls repositories).contains r.url))
  (repositories.filter (fun r => r.origin != REPO_ORIGIN_TREEINFO)) ++ surviving

/-- The filesystem facts the driver-disk scan consults: directory existence
and whether a directory holds a file matching the glob pattern *rpm. -/
structure FS where
  isDir : String → Bool
  hasRpm : String → Bool

/-- Modelled from the spec: join_paths (pyanaconda.core.path) joins a
directory and a component with a slash; the defining module is outside the
reviewed files. -/
def join_paths (path name : String) : String := path ++ "/" ++ name

/-- The body of the unbounded loop at repositories.py:50-71, indexed by fuel.
Returns the emitted records together with the list of external createrepo
invocations (each recorded as the directory it was run on). The loop breaks
at the first index whose directory is missing; a directory without RPM files
is skipped; a directory without repodata triggers an external invocation
before the record is appended. -/
def ddLoop (fs : FS) (path : String) : Nat → Nat → List RepoConfigurationData × List String
  | 0, _ => ([], [])
  | fuel + 1, i =>
    let repo_name := "DD-" ++ toString i
    let repo_path := join_paths path repo_name
    if !(fs.isDir repo_path) then ([], [])
    else if !(fs.hasRpm repo_path) then ddLoop fs path fuel (i + 1)
    else
      let calls := if !(fs.isDir (join_paths repo_path "repodata")) then [repo_path] else []
      let repo := { RepoConfigurationData.default with
                    name := repo_name, url := "file://" ++ repo_path }
      let rest := ddLoop fs path fuel (i + 1)
      (repo :: rest.1, calls ++ rest.2)

/-- generate_driver_disk_repositories (repositories.py:34-73): policy
short-circuit on the driver-disk feature flag, then the scan loop starting
at index 1. -/
def generate_driver_disk_repositories (can_use_driver_disks : Bool) (fs : FS)
    (path : String) (fuel : Nat) : List RepoConfigurationData × List String :=
  if !can_use_driver_disks then ([], [])
  else ddLoop fs path fuel 1

/-- The URL source module state (url.py): a single-slot store of one
RepoConfigurationData. Change-notification carries no state of its own and is
not modelled. -/
structure URLSourceModule where
  repo_configuration : RepoConfigurationData
deriving DecidableEq, Repr

/-- The repo_configuration property getter (url.py:142-148). -/
def URLSourceModule.get_configuration (m : URLSourceModule) : RepoConfigurationData :=
  m.repo_configuration

/-- URLSourceModule._validate_url (url.py:173-175): the type must belong to
URL_TYPES. -/
def validate_url (url_type : String) : Bool := URL_TYPES.contains url_type

/-- URLSourceModule._validate_proxy (url.py:163-171): an empty proxy is
accepted, a non-empty one must parse as a ProxyString. The ProxyString parser
(pyanaconda.core.payload) is outside the reviewed files, so it enters the
embedding as the abstract predicate proxyOk. -/
def validate_proxy (proxyOk : String → Bool) (proxy : String) : Bool :=
  if proxy == "" then true else proxyOk proxy

/-- URLSourceModule.set_repo_configuration (url.py:150-161): validate the
type, then the proxy, and only then replace the stored record. A raised
InvalidValueError becomes a returned error message paired with the unchanged
state. -/
def set_repo_configuration (proxyOk : String → Bool) (m : URLSourceModule)
    (repo_configuration : RepoConfigurationData) : URLSourceModule × Option String :=
  if !(validate_url repo_configuration.type) then
    (m, some ("Invalid source type set " ++ repo_configuration.type))
  else if !(validate_proxy proxyOk repo_configuration.proxy) then
    (m, some "Proxy URL does not have valid format")
  else
    ({ m with repo_configuration := repo_configuration }, none)

/-- The url section of the declarative kickstart record consumed and produced
by the URL source (an external parser object; fields as read and written at
url.py:83-120). A missing string field is the empty string. -/
structure KickstartUrlData where
  url : String
  mirrorlist : String
  metalink : String
  proxy : String
  noverifyssl : Bool
  sslcacert : String
  sslclientcert : String
  sslclientkey : String
  seen : Bool
deriving DecidableEq, Repr

/-- A fresh declarative record: every field empty or false. -/
def KickstartUrlData.fresh : KickstartUrlData :=
  { url := "", mirrorlist := "", metalink := "", proxy := "", noverifyssl := false,
    sslcacert := "", sslclientcert := "", sslclientkey := "", seen := false }

/-- URLSourceModule.process_kickstart (url.py:83-103): build a fresh
RepoConfigurationData from the declarative record, choosing the first
non-empty of url, mirrorlist, metalink, and store it through
set_repo_configuration. -/
def process_kickstart (proxyOk : String → Bool) (m : URLSourceModule)
    (data : KickstartUrlData) : URLSourceModule × Option String :=
  let repo_data := RepoConfigurationData.default
  let repo_data :=
    if data.url != "" then
      { repo_data with url := data.url, type := URL_TYPE_BASEURL }
    else if data.mirrorlist != "" then
      { repo_data with url := data.mirrorlist, type := URL_TYPE_MIRRORLIST }
    else if data.metalink != "" then
      { repo_data with url := data.metalink, type := URL_TYPE_METALINK }
    else repo_data
  let repo_data :=
    { repo_data with
      proxy := data.proxy
      ssl_verification_enabled := !data.noverifyssl
      ssl_configuration :=
        { ca_cert_path := data.sslcacert
          client_cert_path := data.sslclientcert
          client_key_path := data.sslclientkey } }
  set_repo_configuration proxyOk m repo_data

/-- URLSourceModule.setup_kickstart (url.py:105-120): write the stored
configuration into the declarative record, populating only the field that
matches the stored type, and mark the record seen. -/
def setup_kickstart (m : URLSourceModule) (data : KickstartUrlData) : KickstartUrlData :=
  let c := m.repo_configuration
  let data :=
    if c.type == URL_TYPE_BASEURL then { data with url := c.url }
    else if c.type == URL_TYPE_MIRRORLIST then { data with mirrorlist := c.url }
    else if c.type == URL_TYPE_METALINK then { data with metalink := c.url }
    else data
  { data with
    proxy := c.proxy
    noverifyssl := !c.ssl_verification_enabled
    sslcacert := c.ssl_configuration.ca_cert_path
    sslclientcert := c.ssl_configuration.client_cert_path
    sslclientkey := c.ssl_configuration.client_key_path
    seen := true }

/-- An input validation check (helpers.py InputCheck), restricted to the
fields the aggregator reads. A check status is an arbitrary object in Python
with CHECK_OK = None; it becomes Option String, with none for CHECK_OK. The
run_check callback and the input object are external collaborators and enter
only through the recorded status. -/
structure InputCheck where
  check_status : Option String
  enabled : Bool
deriving DecidableEq, Repr

/-- InputCheck.CHECK_OK (helpers.py:180): the passing status, None. -/
def InputCheck.CHECK_OK : Option String := none

/-- InputCheck.CHECK_SILENT (helpers.py:185): failed but displayed silently. -/
def InputCheck.CHECK_SILENT : Option String := some ""

/-- The InputCheck constructor (helpers.py:198-218): status initialized to
None, enabled initialized to True. -/
def InputCheck.new : InputCheck :=
  { check_status := InputCheck.CHECK_OK, enabled := true }

/-- The input check aggregator state (helpers.py InputCheckHandler): the
ordered check list. -/
structure InputCheckHandler where
  check_list : List InputCheck
deriving DecidableEq, Repr

/-- InputCheckHandler.add_check (helpers.py:283-301): append a freshly
constructed check and return it. -/
def InputCheckHandler.add_check (h : InputCheckHandler) : InputCheckHandler × InputCheck :=
  let checkRef := InputCheck.new
  ({ check_list := h.check_list ++ [checkRef] }, checkRef)

/-- InputCheckHandler.failed_checks (helpers.py:304-308): the enabled checks
whose status differs from CHECK_OK. -/
def InputCheckHandler.failed_checks (h : InputCheckHandler) : List InputCheck :=
  h.check_list.filter (fun c => c.enabled && c.check_status != InputCheck.CHECK_OK)

/-- A sample treeinfo-origin record, for concrete instances. -/
def sampleTreeinfo (name url : String) (enabled : Bool) : RepoConfigurationData :=
  { RepoConfigurationData.default with
    name := name, url := url, origin := REPO_ORIGIN_TREEINFO, enabled := enabled,
    installation_enabled := false }

/-! ### Helper lemmas -/

theorem adjustDisabled_url (L : List RepoConfigurationData) (r : RepoConfigurationData) :
    (adjustDisabled L r).url = r.url := by
  unfold adjustDisabled; split <;> rfl

theorem adjustDisabled_name (L : List RepoConfigurationData) (r : RepoConfigurationData) :
    (adjustDisabled L r).name = r.name := by
  unfold adjustDisabled; split <;> rfl

theorem adjustDisabled_origin (L : List RepoConfigurationData) (r : RepoConfigurationData) :
    (adjustDisabled L r).origin = r.origin := by
  unfold adjustDisabled; split <;> rfl

theorem repo_eta_enabled_false (r : RepoConfigurationData) (h : r.enabled = false) :
    { r with enabled := false } = r := by
  cases r; simp_all

/-- The reconciler's result, decomposed: the non-treeinfo records of L
followed by the adjusted survivors of T, the latter written as a filter of T
itself (possible because the enable adjustment does not touch urls). -/
theorem update_decomposed (L T : List RepoConfigurationData) :
    update_treeinfo_repositories L T
      = L.filter (fun r => r.origin != REPO_ORIGIN_TREEINFO)
        ++ (T.filter
              (fun r => !((existingUrls L).contains r.url))).map (adjustDisabled L) := by
  simp only [update_treeinfo_repositories]
  rw [List.filter_map]
  congr 1
  apply congrArg
  apply List.filter_congr
  intro r _
  simp [Function.comp, adjustDisabled_url]

theorem mem_disabledNames {L : List RepoConfigurationData} {n : String} :
    n ∈ disabledNames L
      ↔ ∃ r ∈ L, r.origin = REPO_ORIGIN_TREEINFO ∧ r.enabled = false ∧ r.name = n := by
  simp only [disabledNames, List.mem_map, List.mem_filter, Bool.and_eq_true, beq_iff_eq,
    Bool.not_eq_true']
  constructor
  · rintro ⟨r, ⟨hr, ho, he⟩, hn⟩
    exact ⟨r, hr, ho, he, hn⟩
  · rintro ⟨r, hr, ho, he, hn⟩
    exact ⟨r, ⟨hr, ho, he⟩, hn⟩

theorem existingUrls_append (l₁ l₂ : List RepoConfigurationData) :
    existingUrls (l₁ ++ l₂) = existingUrls l₁ ++ existingUrls l₂ := by
  simp [existingUrls, List.filter_append]

theorem disabledNames_append (l₁ l₂ : List RepoConfigurationData) :
    disabledNames (l₁ ++ l₂) = disabledNames l₁ ++ disabledNames l₂ := by
  simp [disabledNames, List.filter_append]

theorem existingUrls_filter_nonTreeinfo (L : List RepoConfigurationData) :
    existingUrls (L.filter (fun r => r.origin != REPO_ORIGIN_TREEINFO)) = existingUrls L := by
  unfold existingUrls
  rw [List.filter_filter]
  apply congrArg
  apply List.filter_congr
  intro r _
  cases h : (r.origin != REPO_ORIGIN_TREEINFO) <;> simp [h]

theorem existingUrls_of_all_treeinfo (B : List RepoConfigurationData)
    (h : ∀ b ∈ B, b.origin = REPO_ORIGIN_TREEINFO) : existingUrls B = [] := by
  unfold existingUrls
  rw [List.filter_eq_nil_iff.mpr]
  · rfl
  · intro b hb
    simp [h b hb]

theorem disabledNames_filter_nonTreeinfo (L : List RepoConfigurationData) :
    disabledNames (L.filter (fun r => r.origin != REPO_ORIGIN_TREEINFO)) = [] := by
  unfold disabledNames
  rw [List.filter_filter, List.filter_eq_nil_iff.mpr]
  · rfl
  · intro r _
    cases h : (r.origin == REPO_ORIGIN_TREEINFO) <;> simp [h, bne]

theorem filter_nonTreeinfo_idem (L : List RepoConfigurationData) :
    (L.filter (fun r => r.origin != REPO_ORIGIN_TREEINFO)).filter
        (fun r => r.origin != REPO_ORIGIN_TREEINFO)
      = L.filter (fun r => r.origin != REPO_ORIGIN_TREEINFO) := by
  rw [List.filter_filter]
  apply List.filter_congr
  intro r _
  cases h : (r.origin != REPO_ORIGIN_TREEINFO) <;> simp [h]

theorem adjustDisabled_eq_ite (L : List RepoConfigurationData)
    (r : RepoConfigurationData) :
    adjustDisabled L r
      = if r.name ∈ disabledNames L then { r with enabled := false } else r := by
  unfold adjustDisabled
  by_cases h : r.name ∈ disabledNames L
  · rw [if_pos (List.elem_iff.mpr h), if_pos h]
  · rw [if_neg, if_neg h]
    intro hc
    exact h (List.elem_iff.mp hc)

/-! ### Claim theorems -/

/-- C1: update_treeinfo_repositories returns exactly the records of L whose
origin is not TREEINFO, in their original order, followed by the surviving
records of T in their original order; the leading part contains no
TREEINFO-origin record, and both parts are order-preserving sublists of
their sources. -/
theorem C1_update_replaces_treeinfo (L T : List RepoConfigurationData) :
    update_treeinfo_repositories L T
      = L.filter (fun r => r.origin != REPO_ORIGIN_TREEINFO)
        ++ (T.filter
              (fun r => !((existingUrls L).contains r.url))).map (adjustDisabled L)
    ∧ (∀ r ∈ L.filter (fun r => r.origin != REPO_ORIGIN_TREEINFO),
        r.origin ≠ REPO_ORIGIN_TREEINFO)
    ∧ (L.filter (fun r => r.origin != REPO_ORIGIN_TREEINFO)).Sublist L
    ∧ (T.filter (fun r => !((existingUrls L).contains r.url))).Sublist T := by
  refine ⟨update_decomposed L T, ?_, List.filter_sublist L, List.filter_sublist T⟩
  intro r hr
  have := (List.mem_filter.mp hr).2
  simpa using this

/-- C1 witness: the decomposition at a concrete input. -/
theorem C1_witness :
    update_treeinfo_repositories [] []
      = List.filter (fun r => r.origin != REPO_ORIGIN_TREEINFO) []
        ++ (List.filter
              (fun r => !((existingUrls []).contains r.url)) []).map (adjustDisabled [])
    ∧ (∀ r ∈ List.filter
          (fun r => r.origin != REPO_ORIGIN_TREEINFO) ([] : List RepoConfigurationData),
        r.origin ≠ REPO_ORIGIN_TREEINFO)
    ∧ (List.filter
        (fun r => r.origin != REPO_ORIGIN_TREEINFO) ([] : List RepoConfigurationData)).Sublist []
    ∧ (List.filter
        (fun r => !((existingUrls []).contains r.url)) ([] : List RepoConfigurationData)).Sublist
          [] :=
  C1_update_replaces_treeinfo [] []

/-- C5: generate_treeinfo_repository overrides exactly origin, name, type,
url, enabled and installation_enabled, and inherits every other field
(proxy, ssl verification flag, ssl configuration) from the template; the
template itself is a value and is unchanged. -/
theorem C5_generate_treeinfo_repository_fields (repo_data : RepoConfigurationData)
    (repo_md : TreeInfoRepoMetadata) :
    (generate_treeinfo_repository repo_data repo_md).origin = REPO_ORIGIN_TREEINFO
    ∧ (generate_treeinfo_repository repo_data repo_md).name = repo_md.name
    ∧ (generate_treeinfo_repository repo_data repo_md).type = URL_TYPE_BASEURL
    ∧ (generate_treeinfo_repository repo_data repo_md).url = repo_md.url
    ∧ (generate_treeinfo_repository repo_data repo_md).enabled = repo_md.enabled
    ∧ (generate_treeinfo_repository repo_data repo_md).installation_enabled = false
    ∧ (generate_treeinfo_repository repo_data repo_md).proxy = repo_data.proxy
    ∧ (generate_treeinfo_repository repo_data repo_md).ssl_verification_enabled
        = repo_data.ssl_verification_enabled
    ∧ (generate_treeinfo_repository repo_data repo_md).ssl_configuration
        = repo_data.ssl_configuration :=
  ⟨rfl, rfl, rfl, rfl, rfl, rfl, rfl, rfl, rfl⟩

/-- C10: failed_checks yields exactly the checks in the list that are enabled
with a status other than CHECK_OK; a check freshly created by add_check has
status CHECK_OK (so it does not count as failing before it is run), and a
disabled check is never reported regardless of its status. -/
theorem C10_failed_checks (h : InputCheckHandler) (c : InputCheck) :
    (c ∈ h.failed_checks
      ↔ c ∈ h.check_list ∧ c.enabled = true ∧ c.check_status ≠ InputCheck.CHECK_OK)
    ∧ h.add_check.2.check_status = InputCheck.CHECK_OK
    ∧ (c.enabled = false → c ∉ h.failed_checks) := by
  refine ⟨?_, rfl, ?_⟩
  · simp [InputCheckHandler.failed_checks, List.mem_filter, and_assoc]
  · intro hc hm
    have := (List.mem_filter.mp hm).2
    simp [hc] at this

/-- C10 witness: a disabled failing check and an enabled failing check, at a
concrete handler. -/
theorem C10_witness :
    ((⟨some "bad", true⟩ : InputCheck)
        ∈ InputCheckHandler.failed_checks ⟨[⟨some "bad", true⟩, ⟨some "bad", false⟩]⟩
      ↔ (⟨some "bad", true⟩ : InputCheck) ∈ [⟨some "bad", true⟩, ⟨some "bad", false⟩]
        ∧ (true : Bool) = true ∧ (some "bad") ≠ InputCheck.CHECK_OK)
    ∧ (InputCheckHandler.add_check ⟨[⟨some "bad", true⟩, ⟨some "bad", false⟩]⟩).2.check_status
        = InputCheck.CHECK_OK
    ∧ ((false : Bool) = false
        → (⟨some "bad", false⟩ : InputCheck)
            ∉ InputCheckHandler.failed_checks ⟨[⟨some "bad", true⟩, ⟨some "bad", false⟩]⟩) := by
  refine ⟨(C10_failed_checks ⟨[⟨some "bad", true⟩, ⟨some "bad", false⟩]⟩ ⟨some "bad", true⟩).1,
          (C10_failed_checks ⟨[⟨some "bad", true⟩, ⟨some "bad", false⟩]⟩ ⟨some "bad", true⟩).2.1,
          (C10_failed_checks ⟨[⟨some "bad", true⟩, ⟨some "bad", false⟩]⟩ ⟨some "bad", false⟩).2.2⟩

/-- C3: a record of the treeinfo batch whose url equals a non-empty url of a
non-treeinfo record of L is absent from the reconciled list, and a batch
record whose url matches no such user-declared url is kept (in its possibly
enable-adjusted form). -/
theorem C3_url_duplicates_dropped (L T : List RepoConfigurationData)
    (r : RepoConfigurationData) (hrT : r ∈ T)
    (hor : r.origin = REPO_ORIGIN_TREEINFO) :
    (r.url ∈ existingUrls L → r ∉ update_treeinfo_repositories L T)
    ∧ (r.url ∉ existingUrls L →
        adjustDisabled L r ∈ update_treeinfo_repositories L T) := by
  rw [update_decomposed L T]
  constructor
  · intro hurl hmem
    rcases List.mem_append.mp hmem with hl | ht
    · have := (List.mem_filter.mp hl).2
      simp [hor] at this
    · rcases List.mem_map.mp ht with ⟨t, htf, hadj⟩
      have hturl := (List.mem_filter.mp htf).2
      have : t.url = r.url := by rw [← hadj, adjustDisabled_url]
      rw [this] at hturl
      simp [List.elem_iff] at hturl
      exact hturl hurl
  · intro hurl
    apply List.mem_append.mpr
    right
    apply List.mem_map.mpr
    refine ⟨r, List.mem_filter.mpr ⟨hrT, ?_⟩, rfl⟩
    simp [List.elem_iff]
    exact hurl

/-- C3 witness: with one user repository at url u, a batch record at url u is
dropped and a batch record at url w is kept. -/
theorem C3_witness :
    ({ RepoConfigurationData.default with
        name := "a", url := "http://u", origin := REPO_ORIGIN_TREEINFO }
      ∉ update_treeinfo_repositories
          [{ RepoConfigurationData.default with name := "user", url := "http://u" }]
          [{ RepoConfigurationData.default with
              name := "a", url := "http://u", origin := REPO_ORIGIN_TREEINFO },
           { RepoConfigurationData.default with
              name := "b", url := "http://w", origin := REPO_ORIGIN_TREEINFO }])
    ∧ (adjustDisabled
        [{ RepoConfigurationData.default with name := "user", url := "http://u" }]
        { RepoConfigurationData.default with
            name := "b", url := "http://w", origin := REPO_ORIGIN_TREEINFO }
      ∈ update_treeinfo_repositories
          [{ RepoConfigurationData.default with name := "user", url := "http://u" }]
          [{ RepoConfigurationData.default with
              name := "a", url := "http://u", origin := REPO_ORIGIN_TREEINFO },
           { RepoConfigurationData.default with
              name := "b", url := "http://w", origin := REPO_ORIGIN_TREEINFO }]) :=
  ⟨(C3_url_duplicates_dropped _ _ _ (by decide) rfl).1 (by decide),
   (C3_url_duplicates_dropped _ _ _ (by decide) rfl).2 (by decide)⟩

/-- C2 counterexample: a batch record whose name is in the disabled set but
whose url duplicates a user repository url does not appear in the result at
all (no record of its name survives), refuting the claim that every such
record appears with enabled forced to false. -/
theorem C2_counterexample :
    ({ RepoConfigurationData.default with
        name := "a", url := "http://u", origin := REPO_ORIGIN_TREEINFO, enabled := true }
      ∈ [{ RepoConfigurationData.default with
            name := "a", url := "http://u", origin := REPO_ORIGIN_TREEINFO, enabled := true }])
    ∧ ("a" ∈ disabledNames
        [{ RepoConfigurationData.default with
            name := "a", url := "http://x", origin := REPO_ORIGIN_TREEINFO, enabled := false },
         { RepoConfigurationData.default with name := "user", url := "http://u" }])
    ∧ (∀ x ∈ update_treeinfo_repositories
          [{ RepoConfigurationData.default with
              name := "a", url := "http://x", origin := REPO_ORIGIN_TREEINFO, enabled := false },
           { RepoConfigurationData.default with name := "user", url := "http://u" }]
          [{ RepoConfigurationData.default with
              name := "a", url := "http://u", origin := REPO_ORIGIN_TREEINFO, enabled := true }],
        x.name ≠ "a") := by decide

/-- C2 amended: provided the batch record's url is not among the urls of the
user-declared (non-treeinfo, non-empty-url) records of L, a record of T whose
name is in the disabled set appears in the result with enabled forced to
false, and a record of T whose name is not in the disabled set appears
unchanged. -/
theorem C2_disabled_names_sticky (L T : List RepoConfigurationData)
    (r : RepoConfigurationData) (hrT : r ∈ T)
    (hurl : r.url ∉ existingUrls L) :
    (r.name ∈ disabledNames L →
      { r with enabled := false } ∈ update_treeinfo_repositories L T)
    ∧ (r.name ∉ disabledNames L → r ∈ update_treeinfo_repositories L T) := by
  rw [update_decomposed L T]
  have hmem : r ∈ T.filter (fun r => !((existingUrls L).contains r.url)) := by
    refine List.mem_filter.mpr ⟨hrT, ?_⟩
    simp [List.elem_iff]
    exact hurl
  constructor
  · intro hname
    apply List.mem_append.mpr
    right
    apply List.mem_map.mpr
    refine ⟨r, hmem, ?_⟩
    unfold adjustDisabled
    rw [if_pos (List.elem_iff.mpr hname)]
  · intro hname
    apply List.mem_append.mpr
    right
    apply List.mem_map.mpr
    refine ⟨r, hmem, ?_⟩
    unfold adjustDisabled
    rw [if_neg]
    intro hc
    exact hname (List.elem_iff.mp hc)

/-- C2 witness: a previously disabled name forces enabled to false; a fresh
name keeps its flag. -/
theorem C2_witness :
    ({ sampleTreeinfo "a" "http://u2" true with enabled := false }
      ∈ update_treeinfo_repositories
          [sampleTreeinfo "a" "http://u1" false]
          [sampleTreeinfo "a" "http://u2" true, sampleTreeinfo "b" "http://u3" true])
    ∧ (sampleTreeinfo "b" "http://u3" true
        ∈ update_treeinfo_repositories
            [sampleTreeinfo "a" "http://u1" false]
            [sampleTreeinfo "a" "http://u2" true, sampleTreeinfo "b" "http://u3" true]) :=
  ⟨(C2_disabled_names_sticky
      [sampleTreeinfo "a" "http://u1" false]
      [sampleTreeinfo "a" "http://u2" true, sampleTreeinfo "b" "http://u3" true]
      (sampleTreeinfo "a" "http://u2" true)
      (by decide) (by decide)).1 (by decide),
   (C2_disabled_names_sticky
      [sampleTreeinfo "a" "http://u1" false]
      [sampleTreeinfo "a" "http://u2" true, sampleTreeinfo "b" "http://u3" true]
      (sampleTreeinfo "b" "http://u3" true)
      (by decide) (by decide)).2 (by decide)⟩

/-- C4 counterexample: with two treeinfo batch records sharing a name, one
disabled and one enabled, a second reconciliation with the same batch forces
the enabled one off, so the result differs from the first reconciliation. -/
theorem C4_counterexample :
    (∀ t ∈ [sampleTreeinfo "x" "u1" false, sampleTreeinfo "x" "u2" true],
        t.origin = REPO_ORIGIN_TREEINFO)
    ∧ update_treeinfo_repositories
        (update_treeinfo_repositories []
          [sampleTreeinfo "x" "u1" false, sampleTreeinfo "x" "u2" true])
        [sampleTreeinfo "x" "u1" false, sampleTreeinfo "x" "u2" true]
      ≠ update_treeinfo_repositories []
          [sampleTreeinfo "x" "u1" false, sampleTreeinfo "x" "u2" true] := by
  decide

/-- C4 amended: reconciliation is idempotent for a treeinfo batch whose
records carry the TREEINFO origin and have pairwise distinct names (the
uniqueness-by-name convention of the data model). -/
theorem C4_reconcile_idempotent (L T : List RepoConfigurationData)
    (hT : ∀ t ∈ T, t.origin = REPO_ORIGIN_TREEINFO)
    (hN : (T.map (fun r => r.name)).Nodup) :
    update_treeinfo_repositories (update_treeinfo_repositories L T) T
      = update_treeinfo_repositories L T := by
  have hBTI : ∀ b ∈ (T.filter
        (fun r => !((existingUrls L).contains r.url))).map (adjustDisabled L),
      b.origin = REPO_ORIGIN_TREEINFO := by
    intro b hb
    obtain ⟨t, htf, rfl⟩ := List.mem_map.mp hb
    rw [adjustDisabled_origin]
    exact hT t (List.mem_of_mem_filter htf)
  rw [update_decomposed L T, update_decomposed _ T]
  have hE : existingUrls
        (L.filter (fun r => r.origin != REPO_ORIGIN_TREEINFO)
          ++ (T.filter
                (fun r => !((existingUrls L).contains r.url))).map (adjustDisabled L))
      = existingUrls L := by
    rw [existingUrls_append, existingUrls_filter_nonTreeinfo,
      existingUrls_of_all_treeinfo _ hBTI, List.append_nil]
  have hD : disabledNames
        (L.filter (fun r => r.origin != REPO_ORIGIN_TREEINFO)
          ++ (T.filter
                (fun r => !((existingUrls L).contains r.url))).map (adjustDisabled L))
      = disabledNames
          ((T.filter
              (fun r => !((existingUrls L).contains r.url))).map (adjustDisabled L)) := by
    rw [disabledNames_append, disabledNames_filter_nonTreeinfo, List.nil_append]
  have hBnil : ((T.filter
        (fun r => !((existingUrls L).contains r.url))).map (adjustDisabled L)).filter
          (fun r => r.origin != REPO_ORIGIN_TREEINFO) = [] :=
    List.filter_eq_nil_iff.mpr (fun b hb => by simp [hBTI b hb])
  rw [List.filter_append, filter_nonTreeinfo_idem, hBnil, List.append_nil]
  congr 1
  simp only [hE]
  apply List.map_congr_left
  intro t ht
  have htT : t ∈ T := List.mem_of_mem_filter ht
  rw [adjustDisabled_eq_ite, adjustDisabled_eq_ite]
  simp only [hD]
  by_cases hm : t.name ∈ disabledNames
      ((T.filter (fun r => !((existingUrls L).contains r.url))).map (adjustDisabled L))
  · rw [if_pos hm]
    obtain ⟨b, hbB, hbo, hbe, hbn⟩ := mem_disabledNames.mp hm
    obtain ⟨s, hsf, hadj⟩ := List.mem_map.mp hbB
    have hsT : s ∈ T := List.mem_of_mem_filter hsf
    have hname : s.name = t.name := by rw [← hbn, ← hadj, adjustDisabled_name]
    have hst : s = t := List.inj_on_of_nodup_map hN hsT htT hname
    subst hst
    by_cases hl : s.name ∈ disabledNames L
    · rw [if_pos hl]
    · rw [if_neg hl]
      rw [adjustDisabled_eq_ite, if_neg hl] at hadj
      rw [← hadj] at hbe
      exact repo_eta_enabled_false s hbe
  · rw [if_neg hm]
    by_cases hl : t.name ∈ disabledNames L
    · exfalso
      apply hm
      apply mem_disabledNames.mpr
      refine ⟨{ t with enabled := false }, ?_, ?_, rfl, rfl⟩
      · apply List.mem_map.mpr
        refine ⟨t, ht, ?_⟩
        rw [adjustDisabled_eq_ite, if_pos hl]
      · exact hT t htT
    · rw [if_neg hl]

/-- C4 witness: idempotence at a concrete list and batch. -/
theorem C4_witness :
    update_treeinfo_repositories
        (update_treeinfo_repositories [sampleTreeinfo "a" "u0" false]
          [sampleTreeinfo "a" "u1" true, sampleTreeinfo "b" "u2" true])
        [sampleTreeinfo "a" "u1" true, sampleTreeinfo "b" "u2" true]
      = update_treeinfo_repositories [sampleTreeinfo "a" "u0" false]
          [sampleTreeinfo "a" "u1" true, sampleTreeinfo "b" "u2" true] :=
  C4_reconcile_idempotent [sampleTreeinfo "a" "u0" false]
    [sampleTreeinfo "a" "u1" true, sampleTreeinfo "b" "u2" true]
    (by decide) (by decide)

/-- The record emitted for driver-disk directory DD-j under the given path. -/
def ddRecord (path : String) (j : Nat) : RepoConfigurationData :=
  { RepoConfigurationData.default with
    name := "DD-" ++ toString j
    url := "file://" ++ join_paths path ("DD-" ++ toString j) }

/-- Running the scan loop from index i when every directory i..n is fully
populated (RPMs and repodata present) and directory n+1 is missing: the loop
emits one record per index, in order, and no createrepo invocation. -/
theorem ddLoop_run (fs : FS) (path : String) (n : Nat) :
    ∀ fuel i, 1 ≤ i → i ≤ n + 1 →
    (∀ j, i ≤ j → j ≤ n →
      fs.isDir (join_paths path ("DD-" ++ toString j)) = true
      ∧ fs.hasRpm (join_paths path ("DD-" ++ toString j)) = true
      ∧ fs.isDir (join_paths (join_paths path ("DD-" ++ toString j)) "repodata") = true) →
    fs.isDir (join_paths path ("DD-" ++ toString (n + 1))) = false →
    n + 2 - i ≤ fuel →
    ddLoop fs path fuel i = ((List.range' i (n + 1 - i)).map (ddRecord path), []) := by
  intro fuel
  induction fuel with
  | zero =>
    intro i h1 h2 _ _ hfuel
    omega
  | succ fuel ih =>
    intro i h1 h2 hall hstop hfuel
    by_cases hi : i = n + 1
    · subst hi
      simp only [ddLoop, hstop, Bool.not_false, if_pos]
      simp
    · have hin : i ≤ n := by omega
      obtain ⟨hd, hr, hrep⟩ := hall i le_rfl hin
      simp only [ddLoop, hd, hr, hrep, Bool.not_true, Bool.false_eq_true, if_false]
      rw [ih (i + 1) (by omega) (by omega)
        (fun j hj1 hj2 => hall j (by omega) hj2) hstop (by omega)]
      have hlen : n + 1 - i = (n - i) + 1 := by omega
      rw [hlen, List.range'_succ]
      simp [ddRecord]

/-- C6: with the driver-disk feature enabled and a path holding exactly the
fully populated directories DD-1..DD-n (RPMs and repodata present, DD-(n+1)
missing), the generator returns exactly the n records DD-1..DD-n in index
order, each default except for name and url, and never invokes the external
metadata-generation command. -/
theorem C6_driver_disk_generation (fs : FS) (path : String) (n fuel : Nat)
    (hall : ∀ j, 1 ≤ j → j ≤ n →
      fs.isDir (join_paths path ("DD-" ++ toString j)) = true
      ∧ fs.hasRpm (join_paths path ("DD-" ++ toString j)) = true
      ∧ fs.isDir (join_paths (join_paths path ("DD-" ++ toString j)) "repodata") = true)
    (hstop : fs.isDir (join_paths path ("DD-" ++ toString (n + 1))) = false)
    (hfuel : n + 1 ≤ fuel) :
    generate_driver_disk_repositories true fs path fuel
      = ((List.range' 1 n).map (ddRecord path), []) := by
  unfold generate_driver_disk_repositories
  rw [if_neg (by simp)]
  rw [ddLoop_run fs path n fuel 1 le_rfl (by omega) hall hstop (by omega)]
  simp

/-- C6 witness: a concrete filesystem with exactly DD-1 and DD-2 populated. -/
theorem C6_witness :
    generate_driver_disk_repositories true
        ⟨fun s => ["/run/install/DD-1", "/run/install/DD-2",
                   "/run/install/DD-1/repodata", "/run/install/DD-2/repodata"].contains s,
         fun s => ["/run/install/DD-1", "/run/install/DD-2"].contains s⟩
        "/run/install" 3
      = ((List.range' 1 2).map (ddRecord "/run/install"), []) :=
  C6_driver_disk_generation
    ⟨fun s => ["/run/install/DD-1", "/run/install/DD-2",
               "/run/install/DD-1/repodata", "/run/install/DD-2/repodata"].contains s,
     fun s => ["/run/install/DD-1", "/run/install/DD-2"].contains s⟩
    "/run/install" 2 3
    (by
      intro j h1 h2
      interval_cases j
      · exact ⟨by decide, by decide, by decide⟩
      · exact ⟨by decide, by decide, by decide⟩)
    (by decide) (by omega)

/-- C7: a DD-k directory without RPM files is skipped and the scan continues
with index k+1; a missing DD-k directory terminates the scan with no records
and no invocations, whatever the filesystem holds at higher indices. -/
theorem C7_scan_skip_and_stop (fs : FS) (path : String) (fuel k : Nat) :
    (fs.isDir (join_paths path ("DD-" ++ toString k)) = true →
     fs.hasRpm (join_paths path ("DD-" ++ toString k)) = false →
     ddLoop fs path (fuel + 1) k = ddLoop fs path fuel (k + 1))
    ∧ (fs.isDir (join_paths path ("DD-" ++ toString k)) = false →
       ddLoop fs path fuel k = ([], [])) := by
  constructor
  · intro hd hr
    simp only [ddLoop, hd, hr, Bool.not_true, Bool.not_false, Bool.false_eq_true, if_false,
      if_true]
  · intro hd
    cases fuel with
    | zero => rfl
    | succ fuel => simp only [ddLoop, hd, Bool.not_false, if_true]

/-- C7 witness: DD-1 present without RPMs is skipped (the scan proceeds to
DD-2 and finds it); a filesystem with DD-2 but no DD-1 yields nothing. -/
theorem C7_witness :
    ddLoop ⟨fun s => ["/r/DD-1", "/r/DD-2", "/r/DD-2/repodata"].contains s,
            fun s => ["/r/DD-2"].contains s⟩ "/r" 3 1
      = ddLoop ⟨fun s => ["/r/DD-1", "/r/DD-2", "/r/DD-2/repodata"].contains s,
                fun s => ["/r/DD-2"].contains s⟩ "/r" 2 2
    ∧ ddLoop ⟨fun s => ["/r/DD-2", "/r/DD-2/repodata"].contains s,
              fun s => ["/r/DD-2"].contains s⟩ "/r" 5 1
      = ([], []) :=
  ⟨(C7_scan_skip_and_stop
      ⟨fun s => ["/r/DD-1", "/r/DD-2", "/r/DD-2/repodata"].contains s,
       fun s => ["/r/DD-2"].contains s⟩ "/r" 2 1).1 (by decide) (by decide),
   (C7_scan_skip_and_stop
      ⟨fun s => ["/r/DD-2", "/r/DD-2/repodata"].contains s,
       fun s => ["/r/DD-2"].contains s⟩ "/r" 5 1).2 (by decide)⟩

/-- C8: set_repo_configuration fails exactly when the candidate type is not
one of BASEURL, MIRRORLIST, METALINK, or the proxy is non-empty and not a
well-formed proxy URL; on failure the stored configuration is unchanged, on
success it becomes the candidate. -/
theorem C8_set_repo_configuration (proxyOk : String → Bool) (m : URLSourceModule)
    (c : RepoConfigurationData) :
    ((set_repo_configuration proxyOk m c).2.isSome = true
      ↔ (c.type ∉ URL_TYPES ∨ (c.proxy ≠ "" ∧ proxyOk c.proxy = false)))
    ∧ ((set_repo_configuration proxyOk m c).2.isSome = true →
        (set_repo_configuration proxyOk m c).1 = m)
    ∧ ((set_repo_configuration proxyOk m c).2 = none →
        (set_repo_configuration proxyOk m c).1.get_configuration = c) := by
  by_cases h1 : URL_TYPES.contains c.type
  · have h1m : c.type ∈ URL_TYPES := List.elem_iff.mp h1
    by_cases h2 : c.proxy = ""
    · simp [set_repo_configuration, validate_url, validate_proxy,
        URLSourceModule.get_configuration, h1, h1m, h2]
    · by_cases h3 : proxyOk c.proxy
      · simp [set_repo_configuration, validate_url, validate_proxy,
          URLSourceModule.get_configuration, h1, h1m, h2, h3]
      · simp [set_repo_configuration, validate_url, validate_proxy,
          URLSourceModule.get_configuration, h1, h1m, h2, h3]
  · have h1m : c.type ∉ URL_TYPES := fun hc => h1 (List.elem_iff.mpr hc)
    simp [set_repo_configuration, validate_url, validate_proxy,
      URLSourceModule.get_configuration, h1, h1m]

/-- C8 witness: an invalid type is rejected with the state unchanged; a valid
candidate is stored. -/
theorem C8_witness :
    ((set_repo_configuration (fun _ => false)
        ⟨RepoConfigurationData.default⟩
        { RepoConfigurationData.default with type := "NFS" }).1
      = ⟨RepoConfigurationData.default⟩)
    ∧ ((set_repo_configuration (fun _ => false)
          ⟨RepoConfigurationData.default⟩
          { RepoConfigurationData.default with url := "http://u" }).1.get_configuration
        = { RepoConfigurationData.default with url := "http://u" }) :=
  ⟨(C8_set_repo_configuration (fun _ => false) ⟨RepoConfigurationData.default⟩
      { RepoConfigurationData.default with type := "NFS" }).2.1 (by decide),
   (C8_set_repo_configuration (fun _ => false) ⟨RepoConfigurationData.default⟩
      { RepoConfigurationData.default with url := "http://u" }).2.2 (by decide)⟩

/-- C9 counterexample: a stored MIRRORLIST configuration with an empty url
round-trips to type BASEURL (the import priority chain finds every field
empty and leaves the fresh record's default type), so the claim fails as
stated for every configuration of the three types. -/
theorem C9_counterexample :
    (URLSourceModule.mk { RepoConfigurationData.default with type := URL_TYPE_MIRRORLIST }
      ).repo_configuration.type = URL_TYPE_MIRRORLIST
    ∧ (process_kickstart (fun _ => true)
        (URLSourceModule.mk { RepoConfigurationData.default with type := URL_TYPE_MIRRORLIST })
        (setup_kickstart
          (URLSourceModule.mk
            { RepoConfigurationData.default with type := URL_TYPE_MIRRORLIST })
          KickstartUrlData.fresh)).1.repo_configuration.type ≠ URL_TYPE_MIRRORLIST := by
  decide

/-- C9 amended: for a stored configuration of type BASEURL, MIRRORLIST or
METALINK whose url is non-empty unless the type is BASEURL, exporting with
setup_kickstart into a fresh declarative record and re-importing with
process_kickstart leaves a configuration equal in url, type, proxy,
ssl_verification_enabled and the three ssl paths to the original (on a
rejected proxy the import leaves the prior configuration in place, which is
again equal). -/
theorem C9_kickstart_roundtrip (proxyOk : String → Bool) (m : URLSourceModule)
    (htype : m.repo_configuration.type ∈ URL_TYPES)
    (hurl : m.repo_configuration.type = URL_TYPE_BASEURL ∨ m.repo_configuration.url ≠ "") :
    ((process_kickstart proxyOk m
        (setup_kickstart m KickstartUrlData.fresh)).1.repo_configuration.url
      = m.repo_configuration.url)
    ∧ ((process_kickstart proxyOk m
          (setup_kickstart m KickstartUrlData.fresh)).1.repo_configuration.type
        = m.repo_configuration.type)
    ∧ ((process_kickstart proxyOk m
          (setup_kickstart m KickstartUrlData.fresh)).1.repo_configuration.proxy
        = m.repo_configuration.proxy)
    ∧ ((process_kickstart proxyOk m
          (setup_kickstart m
            KickstartUrlData.fresh)).1.repo_configuration.ssl_verification_enabled
        = m.repo_configuration.ssl_verification_enabled)
    ∧ ((process_kickstart proxyOk m
          (setup_kickstart m KickstartUrlData.fresh)).1.repo_configuration.ssl_configuration
        = m.repo_configuration.ssl_configuration) := by
  obtain ⟨c⟩ := m
  have htype3 : c.type = URL_TYPE_BASEURL ∨ c.type = URL_TYPE_MIRRORLIST
      ∨ c.type = URL_TYPE_METALINK := by
    simpa [URL_TYPES] using htype
  rcases htype3 with ht | ht | ht
  · by_cases hu : c.url = "" <;>
      by_cases hp : c.proxy = "" <;>
      by_cases hpo : proxyOk c.proxy = true <;>
      simp [setup_kickstart, process_kickstart, set_repo_configuration, validate_url,
        validate_proxy, URLSourceModule.get_configuration, KickstartUrlData.fresh,
        URL_TYPES, URL_TYPE_BASEURL, URL_TYPE_MIRRORLIST, URL_TYPE_METALINK,
        RepoConfigurationData.default, ht, hu, hp, hpo]
  · have hu : c.url ≠ "" := by
      rcases hurl with h | h
      · rw [ht] at h
        exact absurd h (by decide)
      · exact h
    by_cases hp : c.proxy = "" <;>
      by_cases hpo : proxyOk c.proxy = true <;>
      simp [setup_kickstart, process_kickstart, set_repo_configuration, validate_url,
        validate_proxy, URLSourceModule.get_configuration, KickstartUrlData.fresh,
        URL_TYPES, URL_TYPE_BASEURL, URL_TYPE_MIRRORLIST, URL_TYPE_METALINK,
        RepoConfigurationData.default, ht, hu, hp, hpo]
  · have hu : c.url ≠ "" := by
      rcases hurl with h | h
      · rw [ht] at h
        exact absurd h (by decide)
      · exact h
    by_cases hp : c.proxy = "" <;>
      by_cases hpo : proxyOk c.proxy = true <;>
      simp [setup_kickstart, process_kickstart, set_repo_configuration, validate_url,
        validate_proxy, URLSourceModule.get_configuration, KickstartUrlData.fresh,
        URL_TYPES, URL_TYPE_BASEURL, URL_TYPE_MIRRORLIST, URL_TYPE_METALINK,
        RepoConfigurationData.default, ht, hu, hp, hpo]

/-- C9 witness: the round trip at a concrete MIRRORLIST configuration. -/
theorem C9_witness :
    ((process_kickstart (fun _ => false)
        ⟨{ RepoConfigurationData.default with
            type := URL_TYPE_MIRRORLIST, url := "http://m" }⟩
        (setup_kickstart
          ⟨{ RepoConfigurationData.default with
              type := URL_TYPE_MIRRORLIST, url := "http://m" }⟩
          KickstartUrlData.fresh)).1.repo_configuration.url = "http://m")
    ∧ ((process_kickstart (fun _ => false)
          ⟨{ RepoConfigurationData.default with
              type := URL_TYPE_MIRRORLIST, url := "http://m" }⟩
          (setup_kickstart
            ⟨{ RepoConfigurationData.default with
                type := URL_TYPE_MIRRORLIST, url := "http://m" }⟩
            KickstartUrlData.fresh)).1.repo_configuration.type = URL_TYPE_MIRRORLIST) :=
  ⟨(C9_kickstart_roundtrip (fun _ => false)
      ⟨{ RepoConfigurationData.default with
          type := URL_TYPE_MIRRORLIST, url := "http://m" }⟩
      (by decide) (by decide)).1,
   (C9_kickstart_roundtrip (fun _ => false)
      ⟨{ RepoConfigurationData.default with
          type := URL_TYPE_MIRRORLIST, url := "http://m" }⟩
      (by decide) (by decide)).2.1⟩

end Anaconda
